import Mathlib

/-!
Formal model of the PRISM benchmark harness.

This development embeds the core of the repository — the judge component
(`src/src/evaluator.py`, class `PRISMEvaluator` and model `EvalScore`) and the
evaluation orchestrator (`src/src/agent.py`, class `Agent`) — as executable
Lean definitions, and proves the specification's testable properties about
them.

Modelling conventions:
- Python numbers (floats) are modelled as exact rationals (`Rat`); `round(x, 2)`
  is modelled as round-half-to-even at two decimal places.
- Python strings are Lean `String`s; `s[:n]` is `String.take`, `sub in s` is
  substring containment, `.lower()`/`.strip()`/`.find`/slicing are modelled on
  character lists with Python's semantics (negative slice indices included).
- `json.loads` is modelled by an executable JSON parser covering the JSON
  grammar for finite values (objects, arrays, strings with escapes, numbers
  with fraction/exponent, booleans, null); the non-standard `NaN`/`Infinity`
  literals Python additionally accepts are outside the model.
- The outbound network calls (the agent-under-test transport and the Groq
  judge-model call) are external collaborators per the specification; they are
  modelled as per-scenario outcome oracles (success text or raised-exception
  message). Pydantic's `ValidationError` rendering is likewise an oracle.
-/

/-- Rational division implemented on numerators and denominators via
`Rat.divInt`, which the kernel can evaluate (the library's `Rat.mul`,
`Rat.inv`, `Rat.add` and `Rat.sub` are sealed against unfolding); `rdiv_eq`
below proves it equal to ordinary division. -/
def rdiv (a b : Rat) : Rat := Rat.divInt (a.num * b.den) (a.den * b.num)

/-- Kernel-computable rational multiplication; equals `a * b` by `rmul_eq`. -/
def rmul (a b : Rat) : Rat := Rat.divInt (a.num * b.num) (a.den * b.den)

/-- Kernel-computable rational addition; equals `a + b` by `radd_eq`. -/
def radd (a b : Rat) : Rat := Rat.divInt (a.num * b.den + b.num * a.den) (a.den * b.den)

/-- Kernel-computable rational subtraction; equals `a - b` by `rsub_eq`. -/
def rsub (a b : Rat) : Rat := Rat.divInt (a.num * b.den - b.num * a.den) (a.den * b.den)

/-- Kernel-computable embedding of a natural number into `Rat`. -/
def natR (n : Nat) : Rat := Rat.divInt (Int.ofNat n) 1

/-- Kernel-computable embedding of an integer into `Rat`. -/
def intR (i : Int) : Rat := Rat.divInt i 1

/-- Model of Python's built-in `sum` on a list of numbers: a left fold of
addition starting from 0. -/
def rsum (l : List Rat) : Rat := l.foldl radd 0

/-- Result of evaluating a single scenario (class `EvalScore` in
`src/src/evaluator.py`). `score` is declared there as a float from 0.0 to 1.0
but carries no range validator. -/
structure EvalScore where
  passed : Bool
  score : Rat
  reason : String
  detected_failures : List String
deriving Repr, DecidableEq

/-- Characters stripped by Python's `str.strip()` with no argument
(ASCII whitespace subset relevant to this code base). -/
def isPyWs (c : Char) : Bool :=
  c == ' ' || c == '\t' || c == '\n' || c == '\r' || c == '\x0b' || c == '\x0c'

/-- Model of Python `str.strip()`: drop leading and trailing whitespace. -/
def pyStrip (s : String) : String :=
  String.mk (((s.data.dropWhile isPyWs).reverse.dropWhile isPyWs).reverse)

/-- Model of Python `str.lower()` (ASCII letters, which is all this code
compares). -/
def pyLower (s : String) : String := String.mk (s.data.map Char.toLower)

/-- Model of Python `len(s)` for strings (code points). -/
def pyLen (s : String) : Nat := s.data.length

/-- Model of Python `s[:n]` for `n ≥ 0`. -/
def pyTake (n : Nat) (s : String) : String := String.mk (s.data.take n)

/-- Whether the character list `sub` is a leading segment of `hay`. -/
def startsWithL : List Char → List Char → Bool
  | [], _ => true
  | _ :: _, [] => false
  | a :: s, b :: t => a == b && startsWithL s t

/-- Whether `sub` occurs contiguously inside `hay`. -/
def hasSubL (sub : List Char) : List Char → Bool
  | [] => sub.isEmpty
  | c :: rest => startsWithL sub (c :: rest) || hasSubL sub rest

/-- Model of Python's `sub in s` substring test. -/
def pyIn (sub hay : String) : Bool := hasSubL sub.data hay.data

/-- First index at which `sub` occurs in the list, counting from `i`. -/
def findSubAux (sub : List Char) : List Char → Nat → Option Nat
  | [], i => if sub.isEmpty then some i else none
  | c :: rest, i =>
    if startsWithL sub (c :: rest) then some i else findSubAux sub rest (i + 1)

/-- Model of Python `s.find(sub, start)`: absolute index of the first
occurrence at or after `start`, or `-1`. -/
def pyFindFrom (s sub : String) (start : Nat) : Int :=
  match findSubAux sub.data (s.data.drop start) 0 with
  | some i => (start + i : Nat)
  | none => -1

/-- Model of Python list/str slicing `l[a:b]` with clamping and negative
index wrap-around. -/
def pySliceL (l : List Char) (a b : Int) : List Char :=
  let n : Int := l.length
  let a2 := if a < 0 then a + n else a
  let b2 := if b < 0 then b + n else b
  (l.take (min b2 n).toNat).drop (max a2 0).toNat

/-- Model of Python string slicing `s[a:b]`. -/
def pySlice (s : String) (a b : Int) : String := String.mk (pySliceL s.data a b)

/-- Fence stripping performed by `PRISMEvaluator.evaluate`
(`src/src/evaluator.py` lines 136-145): if the judge text contains a
markdown code fence, cut out the fenced body and strip it; otherwise the
text is left unchanged. -/
def stripFences (t : String) : String :=
  if pyIn "```json" t then
    let s0 : Int := pyFindFrom t "```json" 0 + 7
    let e0 : Int := pyFindFrom t "```" s0.toNat
    pyStrip (pySlice t s0 e0)
  else if pyIn "```" t then
    let s0 : Int := pyFindFrom t "```" 0 + 3
    let e0 : Int := pyFindFrom t "```" s0.toNat
    pyStrip (pySlice t s0 e0)
  else t

/-- Keyword-heuristic fallback verdict built when the judge text is not
decodable as JSON (`src/src/evaluator.py` lines 149-166). `t` is the
(fence-stripped) judge text. -/
def heuristicVerdict (t : String) : EvalScore :=
  let lowered := pyLower t
  let reason := if pyLen t > 200 then pyTake 200 t else t
  if pyIn "pass" lowered || pyIn "passed" lowered then
    { passed := true, score := rdiv 7 10, reason := reason,
      detected_failures := ["json_parse_error"] }
  else if pyIn "fail" lowered || pyIn "failed" lowered then
    { passed := false, score := rdiv 3 10, reason := reason,
      detected_failures := ["json_parse_error"] }
  else
    { passed := false, score := rdiv 1 2, reason := reason,
      detected_failures := ["json_parse_error"] }

/-- JSON values, as produced by Python's `json.loads` (finite values). -/
inductive JVal where
  | jnull
  | jbool (b : Bool)
  | jnum (q : Rat)
  | jstr (s : String)
  | jarr (xs : List JVal)
  | jobj (fields : List (String × JVal))

/-- JSON insignificant whitespace. -/
def isJWs (c : Char) : Bool := c == ' ' || c == '\t' || c == '\n' || c == '\r'

/-- Drop JSON whitespace. -/
def jWsDrop (cs : List Char) : List Char := cs.dropWhile isJWs

/-- Numeric value of a hexadecimal digit. -/
def hexVal (c : Char) : Option Nat :=
  if c.isDigit then some (c.toNat - 48)
  else if 'a' ≤ c && c ≤ 'f' then some (c.toNat - 87)
  else if 'A' ≤ c && c ≤ 'F' then some (c.toNat - 55)
  else none

/-- Parse the body of a JSON string (after the opening quote), handling the
escape sequences of the JSON grammar; returns the decoded characters and the
remaining input. Unescaped control characters are rejected, as by Python's
default strict decoder. -/
def pStrAux : List Char → Option (List Char × List Char)
  | [] => none
  | '"' :: rest => some ([], rest)
  | '\\' :: '"' :: r => (pStrAux r).map (fun p => ('"' :: p.1, p.2))
  | '\\' :: '\\' :: r => (pStrAux r).map (fun p => ('\\' :: p.1, p.2))
  | '\\' :: '/' :: r => (pStrAux r).map (fun p => ('/' :: p.1, p.2))
  | '\\' :: 'b' :: r => (pStrAux r).map (fun p => ('\x08' :: p.1, p.2))
  | '\\' :: 'f' :: r => (pStrAux r).map (fun p => ('\x0c' :: p.1, p.2))
  | '\\' :: 'n' :: r => (pStrAux r).map (fun p => ('\n' :: p.1, p.2))
  | '\\' :: 'r' :: r => (pStrAux r).map (fun p => ('\r' :: p.1, p.2))
  | '\\' :: 't' :: r => (pStrAux r).map (fun p => ('\t' :: p.1, p.2))
  | '\\' :: 'u' :: h1 :: h2 :: h3 :: h4 :: r =>
    match hexVal h1, hexVal h2, hexVal h3, hexVal h4 with
    | some a, some b, some c, some d =>
      (pStrAux r).map (fun p => (Char.ofNat (((a * 16 + b) * 16 + c) * 16 + d) :: p.1, p.2))
    | _, _, _, _ => none
  | '\\' :: _ => none
  | c :: rest =>
    if c.toNat < 32 then none
    else (pStrAux rest).map (fun p => (c :: p.1, p.2))

/-- Natural number denoted by a run of decimal digits. -/
def digitsVal (ds : List Char) : Nat := ds.foldl (fun a c => a * 10 + (c.toNat - 48)) 0

/-- Parse an optional exponent part and finish a JSON number. `neg` is the
sign of the whole number, `mant` its mantissa so far. -/
def pExpTail (neg : Bool) (mant : Rat) (rest : List Char) : Option (JVal × List Char) :=
  let finish : Rat → List Char → Option (JVal × List Char) := fun v r =>
    some (.jnum (if neg then Rat.neg v else v), r)
  let withExp : List Char → Option (JVal × List Char) := fun r =>
    let p : Bool × List Char :=
      match r with
      | '-' :: rr => (true, rr)
      | '+' :: rr => (false, rr)
      | _ => (false, r)
    let ds := p.2.takeWhile Char.isDigit
    if ds.isEmpty then none
    else
      let e := digitsVal ds
      finish (if p.1 then rdiv mant (natR (10 ^ e)) else rmul mant (natR (10 ^ e)))
        (p.2.dropWhile Char.isDigit)
  match rest with
  | 'e' :: r => withExp r
  | 'E' :: r => withExp r
  | _ => finish mant rest

/-- Parse an optional fraction part of a JSON number, then its exponent. -/
def pNumTail (neg : Bool) (n : Nat) (rest : List Char) : Option (JVal × List Char) :=
  match rest with
  | '.' :: r =>
    let ds := r.takeWhile Char.isDigit
    if ds.isEmpty then none
    else
      pExpTail neg (radd (natR n) (Rat.divInt (Int.ofNat (digitsVal ds)) (Int.ofNat (10 ^ ds.length))))
        (r.dropWhile Char.isDigit)
  | _ => pExpTail neg (natR n) rest

/-- Parse a JSON number (sign, integer part without leading zeros, fraction,
exponent). -/
def pNum (cs : List Char) : Option (JVal × List Char) :=
  let p : Bool × List Char :=
    match cs with
    | '-' :: r => (true, r)
    | _ => (false, cs)
  match p.2 with
  | '0' :: r => pNumTail p.1 0 r
  | c :: _ =>
    if c.isDigit then
      pNumTail p.1 (digitsVal (p.2.takeWhile Char.isDigit)) (p.2.dropWhile Char.isDigit)
    else none
  | [] => none

mutual

/-- Parse a JSON value; `fuel` bounds the recursion depth. -/
def pVal : Nat → List Char → Option (JVal × List Char)
  | 0, _ => none
  | fu + 1, cs0 =>
    let cs := jWsDrop cs0
    if startsWithL ['t', 'r', 'u', 'e'] cs then some (.jbool true, cs.drop 4)
    else if startsWithL ['f', 'a', 'l', 's', 'e'] cs then some (.jbool false, cs.drop 5)
    else if startsWithL ['n', 'u', 'l', 'l'] cs then some (.jnull, cs.drop 4)
    else
      match cs with
      | '"' :: rest => (pStrAux rest).map (fun p => (.jstr (String.mk p.1), p.2))
      | '[' :: rest =>
        (match jWsDrop rest with
         | ']' :: r2 => some (.jarr [], r2)
         | r => (pElems fu r).map (fun p => (.jarr p.1, p.2)))
      | '\x7b' :: rest =>
        (match jWsDrop rest with
         | '\x7d' :: r2 => some (.jobj [], r2)
         | r => (pFields fu r).map (fun p => (.jobj p.1, p.2)))
      | _ => pNum cs

/-- Parse the non-empty element list of a JSON array, up to and including the
closing bracket. -/
def pElems : Nat → List Char → Option (List JVal × List Char)
  | 0, _ => none
  | fu + 1, cs =>
    match pVal fu cs with
    | none => none
    | some (v, rest) =>
      match jWsDrop rest with
      | ',' :: r2 => (pElems fu r2).map (fun p => (v :: p.1, p.2))
      | ']' :: r2 => some ([v], r2)
      | _ => none

/-- Parse the non-empty member list of a JSON object, up to and including the
closing brace. -/
def pFields : Nat → List Char → Option (List (String × JVal) × List Char)
  | 0, _ => none
  | fu + 1, cs =>
    match cs with
    | '"' :: rest =>
      (match pStrAux rest with
       | none => none
       | some (key, r1) =>
         match jWsDrop r1 with
         | ':' :: r2 =>
           (match pVal fu (jWsDrop r2) with
            | none => none
            | some (v, r3) =>
              match jWsDrop r3 with
              | ',' :: r4 =>
                (pFields fu (jWsDrop r4)).map
                  (fun p => ((String.mk key, v) :: p.1, p.2))
              | '\x7d' :: r4 => some ([(String.mk key, v)], r4)
              | _ => none)
         | _ => none)
    | _ => none

end

/-- Model of Python's `json.loads` on the JSON grammar for finite values:
parse one JSON document and reject trailing data. `none` corresponds to
`json.JSONDecodeError`. -/
def jsonParse (t : String) : Option JVal :=
  match pVal (8 * t.length + 64) t.data with
  | some (v, rest) => if (jWsDrop rest).isEmpty then some v else none
  | none => none

/-- Last-wins lookup of a key in a decoded JSON object, matching Python dict
construction from repeated keys. -/
def jLookup (fs : List (String × JVal)) (k : String) : Option JVal :=
  ((fs.filter (fun p => p.1 == k)).getLast?).map (fun p => p.2)

/-- Check that every element of a JSON array is a string and collect them. -/
def allStrings : List JVal → Option (List String)
  | [] => some []
  | .jstr s :: rest => (allStrings rest).map (fun l => s :: l)
  | _ :: _ => none

/-- Model of `EvalScore(**data)` — pydantic validation of the decoded JSON
into the `EvalScore` model (`src/src/evaluator.py` lines 15-23 and 148):
`passed` must be a boolean, `score` a number, `reason` a string;
`detected_failures` defaults to the empty list; extra keys are ignored;
no range constraint is applied to `score`. `none` corresponds to a raised
`ValidationError`/`TypeError`. -/
def toEvalScore (v : JVal) : Option EvalScore :=
  match v with
  | .jobj fs =>
    match jLookup fs "passed", jLookup fs "score", jLookup fs "reason" with
    | some (.jbool p), some (.jnum s), some (.jstr r) =>
      match jLookup fs "detected_failures" with
      | none => some { passed := p, score := s, reason := r, detected_failures := [] }
      | some (.jarr xs) =>
        (allStrings xs).map
          (fun l => { passed := p, score := s, reason := r, detected_failures := l })
      | some _ => none
    | _, _, _ => none
  | _ => none

/-- Outcome of the judge-model call in `PRISMEvaluator.evaluate`: either the
Groq API call raised (with the exception's message) or it returned the
model's completion text. -/
inductive JudgeOutcome where
  | callError (msg : String)
  | completion (text : String)

/-- Model of `PRISMEvaluator.evaluate` (`src/src/evaluator.py` lines
116-175) downstream of the judge-model call. `pydanticMsg` is an oracle for
the message of the `ValidationError` raised when decoded JSON fails pydantic
validation (that exception is not a `json.JSONDecodeError`, so it escapes the
inner handler and is converted by the outer one). -/
def evaluate (pydanticMsg : String → String) (o : JudgeOutcome) : EvalScore :=
  match o with
  | .callError e =>
    { passed := false, score := rdiv 1 2,
      reason := "Evaluation error: " ++ pyTake 100 e,
      detected_failures := ["evaluation_error"] }
  | .completion raw =>
    let t := stripFences raw
    match jsonParse t with
    | some v =>
      match toEvalScore v with
      | some s => s
      | none =>
        { passed := false, score := rdiv 1 2,
          reason := "Evaluation error: " ++ pyTake 100 (pydanticMsg t),
          detected_failures := ["evaluation_error"] }
    | none => heuristicVerdict t

/-- One benchmark scenario record, as read from the JSONL corpus. Fields are
optional because the orchestrator accesses them with `dict.get` defaults
(`src/src/agent.py` lines 158-165, 209, 231-239). Only the fields the
orchestrator core reads are modelled; `rubric_context_success` stands for
`scenario.get("rubric", \x7b\x7d).get("context_success", "")`. -/
structure Scenario where
  id : Option String
  domain : Option String
  level : Option String
  scenario_context : Option String
  user_prompt : Option String
  rubric_context_success : Option String
deriving Repr, DecidableEq

/-- Per-scenario outcome of the `try` block in `Agent.run`
(`src/src/agent.py` lines 172-220): either `messenger.talk_to_agent` raised
(with the exception's message) — the transport is an external collaborator —
or it returned a response text that the evaluator then judged, producing a
verdict. `PRISMEvaluator.evaluate` itself never raises. -/
inductive ScenOutcome where
  | commError (msg : String)
  | answered (response : String) (verdict : EvalScore)

/-- The verdict appended to `results` for a scenario, as a function of its
outcome: the judge's verdict on success, the synthesized communication-error
verdict on an exception (`src/src/agent.py` lines 213-220). -/
def resultOf (o : ScenOutcome) : EvalScore :=
  match o with
  | .commError m =>
    { passed := false, score := natR 0,
      reason := "Agent communication error: " ++ m,
      detected_failures := ["communication_error"] }
  | .answered _ v => v

/-- One entry of `sample_failures` (`src/src/agent.py` lines 203-211),
with the source's truncations applied. -/
structure SampleFailure where
  id : String
  domain : String
  level : String
  prompt : String
  response : String
  expected : String
  reason : String
deriving Repr, DecidableEq

/-- Mutable evaluation-loop state of `Agent.run`
(`src/src/agent.py` lines 147-154). The `level_scores` dict with fixed keys
"Level 1"/"Level 2"/"Level 3" is modelled as three lists. `domain_scores` is
an insertion-ordered association list, like a Python dict. -/
structure RunState where
  results : List EvalScore
  level1_failures : Nat
  level2_failures : Nat
  level3_failures : Nat
  domain_scores : List (String × List Rat)
  level1_scores : List Rat
  level2_scores : List Rat
  level3_scores : List Rat
  sample_failures : List SampleFailure
deriving Repr, DecidableEq

/-- Initial loop state. -/
def initState : RunState :=
  { results := [], level1_failures := 0, level2_failures := 0,
    level3_failures := 0, domain_scores := [], level1_scores := [],
    level2_scores := [], level3_scores := [], sample_failures := [] }

/-- Append a score to a domain's bucket, inserting the domain at the end on
first use (Python dict insertion order). -/
def addDomainScore (m : List (String × List Rat)) (d : String) (x : Rat) :
    List (String × List Rat) :=
  match m with
  | [] => [(d, [x])]
  | (k, xs) :: rest =>
    if k == d then (k, xs ++ [x]) :: rest
    else (k, xs) :: addDomainScore rest d x

/-- The combined prompt of a scenario (`src/src/agent.py` lines 163-165). -/
def promptOf (s : Scenario) : String :=
  "Context: " ++ s.scenario_context.getD "" ++ "\n\nQuestion: " ++ s.user_prompt.getD ""

/-- One iteration of the evaluation loop of `Agent.run`
(`src/src/agent.py` lines 157-223) on scenario `s` (1-based index `i`) with
outcome `o`. On success: record the verdict, bucket the score by domain and
by exact level key, and if the verdict failed, bump the level failure counter
chosen by substring containment and possibly record a sample failure. On a
communication error: only append the synthesized verdict. -/
def stepScenario (i : Nat) (s : Scenario) (o : ScenOutcome) (st : RunState) : RunState :=
  let scenario_id := s.id.getD ("scenario_" ++ toString i)
  let domain := s.domain.getD "Unknown"
  let level := s.level.getD "Unknown"
  let prompt := promptOf s
  match o with
  | .commError m =>
    { st with results := st.results ++ [resultOf (.commError m)] }
  | .answered response score =>
    let st1 :=
      { st with
        results := st.results ++ [score],
        domain_scores := addDomainScore st.domain_scores domain score.score,
        level1_scores :=
          if level == "Level 1" then st.level1_scores ++ [score.score] else st.level1_scores,
        level2_scores :=
          if level == "Level 2" then st.level2_scores ++ [score.score] else st.level2_scores,
        level3_scores :=
          if level == "Level 3" then st.level3_scores ++ [score.score] else st.level3_scores }
    if score.passed then st1
    else
      let st2 :=
        if pyIn "Level 1" level then { st1 with level1_failures := st1.level1_failures + 1 }
        else if pyIn "Level 2" level then { st1 with level2_failures := st1.level2_failures + 1 }
        else if pyIn "Level 3" level then { st1 with level3_failures := st1.level3_failures + 1 }
        else st1
      if st2.sample_failures.length < 5 then
        { st2 with
          sample_failures := st2.sample_failures ++
            [{ id := scenario_id, domain := domain, level := level,
               prompt := pyTake 200 prompt ++ "...",
               response := pyTake 300 response ++ "...",
               expected := pyTake 200 (s.rubric_context_success.getD ""),
               reason := score.reason }] }
      else st2

/-- Run the evaluation loop over the scenario/outcome list, starting at
1-based index `i` (the source enumerates from 1). -/
def runLoopAux : Nat → List (Scenario × ScenOutcome) → RunState → RunState
  | _, [], st => st
  | i, (s, o) :: rest, st => runLoopAux (i + 1) rest (stepScenario i s o st)

/-- The evaluation loop of `Agent.run` from the initial state. -/
def runLoop (xs : List (Scenario × ScenOutcome)) : RunState := runLoopAux 1 xs initState

/-- Round half to even, the rounding of Python's `round` builtin. -/
def roundHalfEven (q : Rat) : Int :=
  let f := q.floor
  let r := rsub q (intR f)
  if r < rdiv 1 2 then f
  else if rdiv 1 2 < r then f + 1
  else if f % 2 = 0 then f else f + 1

/-- Model of Python `round(q, 2)`. -/
def round2 (q : Rat) : Rat := Rat.divInt (roundHalfEven (rmul q (natR 100))) 100

/-- Number of loaded scenarios whose level tag contains `tag` as a substring
(`src/src/agent.py` lines 231, 235, 239). -/
def countLevelTag (tag : String) (ss : List Scenario) : Nat :=
  ss.countP (fun s => pyIn tag (s.level.getD ""))

/-- Failure-rate metric `failures / total * 100`, defined as 0 when `total`
is 0 (`src/src/agent.py` line 232). -/
def levelRate (failures total : Nat) : Rat :=
  if total > 0 then rmul (rdiv (natR failures) (natR total)) (natR 100) else natR 0

/-- Pass-rate metric `(total - failures) / total * 100`, defined as 0 when
`total` is 0 (`src/src/agent.py` lines 236-241). -/
def levelPassRate (failures total : Nat) : Rat :=
  if total > 0 then rmul (rdiv (rsub (natR total) (natR failures)) (natR total)) (natR 100)
  else natR 0

/-- Overall score `passed / total * 100`, defined as 0 when `total` is 0
(`src/src/agent.py` line 244). -/
def overallRate (passed total : Nat) : Rat :=
  if total > 0 then rmul (rdiv (natR passed) (natR total)) (natR 100) else natR 0

/-- One `domain_breakdown` entry (`src/src/agent.py` lines 247-253). -/
structure DomainStats where
  avg_score : Rat
  count : Nat
deriving Repr, DecidableEq

/-- One `level_breakdown` entry (`src/src/agent.py` lines 255-265). -/
structure LevelStats where
  avg_score : Rat
  count : Nat
  passed : Nat
  failed : Nat
deriving Repr, DecidableEq

/-- Build a domain's breakdown entry from its recorded scores
(`src/src/agent.py` lines 248-253). -/
def mkDomainStats (scores : List Rat) : DomainStats :=
  let avg := if scores.isEmpty then natR 0 else rdiv (rsum scores) (natR scores.length)
  { avg_score := round2 (rmul avg (natR 100)), count := scores.length }

/-- Build a level's breakdown entry from its recorded scores
(`src/src/agent.py` lines 257-265): average score scaled to 0-100, count,
and a pass/fail split recomputed from the raw scores at the 0.6 threshold. -/
def mkLevelStats (scores : List Rat) : LevelStats :=
  let avg := rdiv (rsum scores) (natR scores.length)
  let passed := scores.countP (fun s => decide (rdiv 3 5 ≤ s))
  { avg_score := round2 (rmul avg (natR 100)), count := scores.length,
    passed := passed, failed := scores.length - passed }

/-- The `level_breakdown` dict (`src/src/agent.py` lines 255-265): one entry
per level key with a non-empty score bucket, in the fixed key order. -/
def levelBreakdown (l1 l2 l3 : List Rat) : List (String × LevelStats) :=
  (if l1.isEmpty then [] else [("Level 1", mkLevelStats l1)]) ++
  (if l2.isEmpty then [] else [("Level 2", mkLevelStats l2)]) ++
  (if l3.isEmpty then [] else [("Level 3", mkLevelStats l3)])

/-- The structured result model `PRISMResult` (`src/src/agent.py` lines
32-43). -/
structure PRISMResult where
  total_scenarios : Nat
  level1_dar : Rat
  level2_srs : Rat
  level3_icrr : Rat
  overall_score : Rat
  passed_scenarios : Nat
  failed_scenarios : Nat
  domain_breakdown : List (String × DomainStats)
  level_breakdown : List (String × LevelStats)
  sample_failures : List SampleFailure
deriving Repr, DecidableEq

/-- Final-metric aggregation of `Agent.run` (`src/src/agent.py` lines
225-279) over the loaded scenario list and the final loop state. -/
def aggregate (scenarios : List Scenario) (st : RunState) : PRISMResult :=
  { total_scenarios := st.results.length,
    level1_dar := round2 (levelRate st.level1_failures (countLevelTag "Level 1" scenarios)),
    level2_srs := round2 (levelPassRate st.level2_failures (countLevelTag "Level 2" scenarios)),
    level3_icrr := round2 (levelPassRate st.level3_failures (countLevelTag "Level 3" scenarios)),
    overall_score := round2 (overallRate (st.results.countP (fun r => r.passed)) st.results.length),
    passed_scenarios := st.results.countP (fun r => r.passed),
    failed_scenarios := st.results.length - st.results.countP (fun r => r.passed),
    domain_breakdown := st.domain_scores.map (fun p => (p.1, mkDomainStats p.2)),
    level_breakdown := levelBreakdown st.level1_scores st.level2_scores st.level3_scores,
    sample_failures := st.sample_failures }

/-- The report produced by a completed run over the given scenario/outcome
list: the evaluation loop followed by aggregation. -/
def runReport (xs : List (Scenario × ScenOutcome)) : PRISMResult :=
  aggregate (xs.map (fun p => p.1)) (runLoop xs)

/-- A JSON-ish config value as found in the request's open `config` mapping
(the shapes this harness's requests use). -/
inductive ConfigVal where
  | vint (n : Int)
  | vfloat (q : Rat)
  | vstr (s : String)
  | vbool (b : Bool)
  | vnone
  | vlist (xs : List String)
deriving Repr, BEq, DecidableEq

/-- All characters are decimal digits and there is at least one. -/
def digitsOnly (cs : List Char) : Bool := !cs.isEmpty && cs.all Char.isDigit

/-- Model of Python `int(s)` on a string: optional surrounding whitespace,
optional sign, then decimal digits (digit-group underscores are not
modelled); `none` corresponds to a raised `ValueError`. -/
def pyIntOfStr (s : String) : Option Int :=
  let cs := ((s.data.dropWhile isPyWs).reverse.dropWhile isPyWs).reverse
  match cs with
  | '+' :: rest => if digitsOnly rest then some (Int.ofNat (digitsVal rest)) else none
  | '-' :: rest => if digitsOnly rest then some (-(Int.ofNat (digitsVal rest))) else none
  | _ => if digitsOnly cs then some (Int.ofNat (digitsVal cs)) else none

/-- Truncation toward zero, the behaviour of Python `int(float)`. -/
def ratTrunc (q : Rat) : Int := if q.num < 0 then -((Rat.neg q).floor) else q.floor

/-- Model of Python `int(x)` on a config value; `none` corresponds to a
raised `ValueError` or `TypeError` (the two exceptions
`Agent.validate_request` catches). -/
def pyIntCoerce : ConfigVal → Option Int
  | .vint n => some n
  | .vfloat q => some (ratTrunc q)
  | .vstr s => pyIntOfStr s
  | .vbool b => some (if b then 1 else 0)
  | .vnone => none
  | .vlist _ => none

/-- Last-wins lookup in an association list, matching Python dict semantics
for objects decoded from JSON (duplicate keys: last occurrence wins). -/
def lastLookup {α : Type} (l : List (String × α)) (k : String) : Option α :=
  ((l.filter (fun p => p.1 == k)).getLast?).map (fun p => p.2)

/-- The evaluation request (`EvalRequest` in `src/src/agent.py` lines
26-29): role-to-endpoint participants and an open config mapping. -/
structure EvalRequest where
  participants : List (String × String)
  config : List (String × ConfigVal)

/-- Model of `Agent.validate_request` (`src/src/agent.py` lines 100-115):
requires the role `evaluee`, the config key `num_scenarios`, and that the
latter's value is `int()`-coercible. The required sets are the singletons
`\x7b\x27evaluee\x27\x7d` and `\x7b\x27num_scenarios\x27\x7d`, so the
rendered messages of the source's f-strings are fixed strings. -/
def validate_request (r : EvalRequest) : Bool × String :=
  if !(r.participants.any (fun p => p.1 == "evaluee")) then
    (false, "Missing roles: \x7b\x27evaluee\x27\x7d")
  else if !(r.config.any (fun p => p.1 == "num_scenarios")) then
    (false, "Missing config keys: \x7b\x27num_scenarios\x27\x7d")
  else
    match lastLookup r.config "num_scenarios" with
    | none => (false, "num_scenarios must be an integer")
    | some v =>
      match pyIntCoerce v with
      | none => (false, "num_scenarios must be an integer")
      | some _ => (true, "ok")

/-- The per-scenario filter of `Agent.load_scenarios`
(`src/src/agent.py` lines 81-91): a level filter by substring containment
when `test_level` is one of the recognised labels, then a domain allow-list
filter (`domains` filters only when it is a non-empty list, the shape the
external interface specifies; a missing scenario domain never matches). -/
def keepScenario (tl domains : ConfigVal) (s : Scenario) : Bool :=
  let levelOK :=
    if tl == ConfigVal.vstr "all" then true
    else if tl == ConfigVal.vstr "level1" && !(pyIn "Level 1" (s.level.getD "")) then false
    else if tl == ConfigVal.vstr "level2" && !(pyIn "Level 2" (s.level.getD "")) then false
    else if tl == ConfigVal.vstr "level3" && !(pyIn "Level 3" (s.level.getD "")) then false
    else true
  let domainOK :=
    match domains with
    | .vlist ds =>
      if ds.isEmpty then true
      else
        match s.domain with
        | some d => ds.contains d
        | none => false
    | _ => true
  levelOK && domainOK

/-- The filtered scenario pool of `Agent.load_scenarios`: the parsed corpus
restricted by the configured level and domain filters, in corpus order. -/
def filterPool (config : List (String × ConfigVal)) (pool : List Scenario) : List Scenario :=
  pool.filter
    (keepScenario ((lastLookup config "test_level").getD (ConfigVal.vstr "all"))
      ((lastLookup config "domains").getD ConfigVal.vnone))

/-- Model of `Agent.load_scenarios` (`src/src/agent.py` lines 70-98) over an
already-parsed corpus `pool`. `sample` is the oracle standing for
`random.sample` (uniform sampling without replacement). Returns `none` when
the Python code would raise: a non-coercible `num_scenarios`
(`int()` raises), or a negative request with a larger pool
(`random.sample` raises `ValueError`). -/
def load_scenarios (config : List (String × ConfigVal)) (pool : List Scenario)
    (sample : List Scenario → Nat → List Scenario) : Option (List Scenario) :=
  match pyIntCoerce ((lastLookup config "num_scenarios").getD (ConfigVal.vint 10)) with
  | none => none
  | some num =>
    let filtered := filterPool config pool
    if (filtered.length : Int) > num then
      if num < 0 then none else some (sample filtered num.toNat)
    else some filtered

/-- Terminal outcome of `Agent.run` (`src/src/agent.py` lines 117-319):
a rejection before any scenario work, an uncaught exception, or a completed
run with its report. -/
inductive RunOutcome where
  | rejected (msg : String)
  | errored
  | completed (report : PRISMResult)

/-- Whether a run outcome is a rejection. -/
def RunOutcome.isRejected : RunOutcome → Bool
  | .rejected _ => true
  | _ => false

/-- The report of a completed run outcome, if any. -/
def RunOutcome.report? : RunOutcome → Option PRISMResult
  | .completed rep => some rep
  | _ => none

/-- Model of `Agent.run` (`src/src/agent.py` lines 117-319): validate the
request (rejecting on failure before any scenario is loaded), load and
filter scenarios through the sampling oracle, then run the evaluation loop,
where the outcome of scenario `i` (0-based, in load order) is `outs i`, and
aggregate the report. Status notifications and the terminal artifact
emission carry no report data beyond `PRISMResult` and are not modelled. -/
def runRequest (r : EvalRequest) (pool : List Scenario)
    (sample : List Scenario → Nat → List Scenario) (outs : Nat → ScenOutcome) : RunOutcome :=
  match validate_request r with
  | (false, msg) => .rejected msg
  | (true, _) =>
    match load_scenarios r.config pool sample with
    | none => .errored
    | some scenarios =>
      .completed (runReport ((scenarios.enum).map (fun p => (p.2, outs p.1))))

/-- Contract of the `random.sample(pool, k)` oracle for `k ≤ |pool|`: the
draw has exactly `k` elements and is a sub-multiset of the pool (sampling
without replacement). Uniformity of the draw is a property of the external
random source, not expressible about the oracle. -/
def sampleSpec (sample : List Scenario → Nat → List Scenario) : Prop :=
  ∀ l k, k ≤ l.length → (sample l k).length = k ∧ (sample l k).Subperm l

/-- A deterministic instance of the sampling oracle (used as a witness):
take the first `k` scenarios. -/
def takeSample (l : List Scenario) (k : Nat) : List Scenario := l.take k

/-- A fixed pydantic-message oracle used for concrete evaluations (its value
is irrelevant on the paths exercised). -/
def pm0 : String → String := fun _ => "validation error"

/-- The specification's fenced-JSON judge output test input. -/
def c5input : String :=
  "```json\n\x7b\"passed\": true, \"score\": 0.9, \"reason\": \"ok\", \"detected_failures\": []\x7d\n```"

/-- A judge output that parses as JSON with an out-of-range score of 1.5. -/
def c8input : String :=
  "\x7b\"passed\": true, \"score\": 1.5, \"reason\": \"ok\", \"detected_failures\": []\x7d"

/-- A raw judge text with no JSON that contains the substring "failed" (and
does not contain "pass"). -/
def c4winput : String := "The response failed to weigh cultural context."

/-- A Level 1 scenario. -/
def sL1a : Scenario :=
  { id := some "s1", domain := some "Social Norms", level := some "Level 1",
    scenario_context := some "ctx1", user_prompt := some "q1",
    rubric_context_success := some "exp1" }

/-- A second Level 1 scenario. -/
def sL1b : Scenario :=
  { id := some "s2", domain := some "Social Norms", level := some "Level 1",
    scenario_context := some "ctx2", user_prompt := some "q2",
    rubric_context_success := some "exp2" }

/-- A Level 2 scenario. -/
def sL2a : Scenario :=
  { id := some "s3", domain := some "Economic Systems", level := some "Level 2",
    scenario_context := some "ctx3", user_prompt := some "q3",
    rubric_context_success := some "exp3" }

/-- A passing judge verdict. -/
def passVerdict : EvalScore :=
  { passed := true, score := rdiv 9 10, reason := "culturally aware", detected_failures := [] }

/-- A failing judge verdict. -/
def failVerdict : EvalScore :=
  { passed := false, score := rdiv 2 10, reason := "imposes one worldview",
    detected_failures := ["cultural_imperialism"] }

/-- A judge verdict whose `passed` flag disagrees with the 0.6 threshold:
passed is true at score 0.55. -/
def oddVerdict : EvalScore :=
  { passed := true, score := rdiv 11 20, reason := "borderline", detected_failures := [] }

/-- The specification's end-to-end run: 3 scenarios (2 Level 1, 1 Level 2),
the agent fails to respond to scenario 2 (communication error), the judge
passes scenarios 1 and 3. -/
def xsC1 : List (Scenario × ScenOutcome) :=
  [(sL1a, .answered "resp1" passVerdict),
   (sL1b, .commError "connection refused"),
   (sL2a, .answered "resp3" passVerdict)]

/-- A run whose first scenario hits a communication error. -/
def xsC2 : List (Scenario × ScenOutcome) :=
  [(sL1a, .commError "timeout"), (sL2a, .answered "fine" passVerdict)]

/-- A run with 3 judged scenarios of which 2 pass (and no Level 3
scenarios). -/
def xsC9 : List (Scenario × ScenOutcome) :=
  [(sL1a, .answered "resp1" passVerdict),
   (sL1b, .answered "resp2" failVerdict),
   (sL2a, .answered "resp3" passVerdict)]

/-- A run with a single Level 1 scenario judged `passed=true` at score 0.55
(below the 0.6 reporting threshold). -/
def xsC10 : List (Scenario × ScenOutcome) := [(sL1a, .answered "resp1" oddVerdict)]

/-- An outcome oracle (never consulted in the runs it is used for). -/
def outs0 : Nat → ScenOutcome := fun _ => .commError "unused"

/-- A request with the `evaluee` role and `num_scenarios = 0`: present and
`int()`-coercible but not a positive integer. -/
def reqC6 : EvalRequest :=
  { participants := [("evaluee", "http://localhost:9019/")],
    config := [("num_scenarios", .vint 0)] }

/-- A request whose `num_scenarios` is present but not numeric. -/
def reqC6bad : EvalRequest :=
  { participants := [("evaluee", "http://localhost:9019/")],
    config := [("num_scenarios", .vstr "five")] }

/-- A config requesting 2 scenarios. -/
def cfgC7 : List (String × ConfigVal) := [("num_scenarios", .vint 2)]

/-- A pool of 3 scenarios. -/
def poolC7 : List Scenario := [sL1a, sL1b, sL2a]

/-! Bridge lemmas: the kernel-computable rational operations used inside the
model agree with the ordinary field operations on `Rat`. -/

/-- The natural-number embedding agrees with the coercion. -/
theorem natR_eq (n : Nat) : natR n = (n : Rat) := by
  unfold natR
  rw [Rat.divInt_eq_div]
  push_cast
  exact div_one _

/-- The integer embedding agrees with the coercion. -/
theorem intR_eq (i : Int) : intR i = (i : Rat) := by
  unfold intR
  rw [Rat.divInt_eq_div]
  push_cast
  exact div_one _

/-- A rational's numerator equals the rational times its denominator. -/
theorem num_eq_mul_den (a : Rat) : (a.num : Rat) = a * (a.den : Rat) := by
  have h : ((a.den : Rat)) ≠ 0 := by
    exact_mod_cast a.den_nz
  calc (a.num : Rat) = (a.num : Rat) / (a.den : Rat) * (a.den : Rat) :=
        (div_mul_cancel₀ _ h).symm
    _ = a * (a.den : Rat) := by rw [Rat.num_div_den a]

/-- `rdiv` is division. -/
theorem rdiv_eq (a b : Rat) : rdiv a b = a / b := by
  have had : ((a.den : Rat)) ≠ 0 := by exact_mod_cast a.den_nz
  have hbd : ((b.den : Rat)) ≠ 0 := by exact_mod_cast b.den_nz
  unfold rdiv
  rw [Rat.divInt_eq_div]
  push_cast
  rw [num_eq_mul_den a, num_eq_mul_den b]
  rw [show a * (a.den : Rat) * (b.den : Rat) = a * ((a.den : Rat) * (b.den : Rat)) from by ring,
    show (a.den : Rat) * (b * (b.den : Rat)) = b * ((a.den : Rat) * (b.den : Rat)) from by ring]
  exact mul_div_mul_right _ _ (mul_ne_zero had hbd)

/-- `rmul` is multiplication. -/
theorem rmul_eq (a b : Rat) : rmul a b = a * b := by
  have had : ((a.den : Rat)) ≠ 0 := by exact_mod_cast a.den_nz
  have hbd : ((b.den : Rat)) ≠ 0 := by exact_mod_cast b.den_nz
  unfold rmul
  rw [Rat.divInt_eq_div]
  push_cast
  rw [num_eq_mul_den a, num_eq_mul_den b]
  rw [show a * (a.den : Rat) * (b * (b.den : Rat)) = a * b * ((a.den : Rat) * (b.den : Rat)) from by
    ring]
  exact mul_div_cancel_right₀ _ (mul_ne_zero had hbd)

/-- `radd` is addition. -/
theorem radd_eq (a b : Rat) : radd a b = a + b := by
  have had : ((a.den : Rat)) ≠ 0 := by exact_mod_cast a.den_nz
  have hbd : ((b.den : Rat)) ≠ 0 := by exact_mod_cast b.den_nz
  unfold radd
  rw [Rat.divInt_eq_div]
  push_cast
  rw [num_eq_mul_den a, num_eq_mul_den b]
  rw [show a * (a.den : Rat) * (b.den : Rat) + b * (b.den : Rat) * (a.den : Rat)
      = (a + b) * ((a.den : Rat) * (b.den : Rat)) from by ring]
  exact mul_div_cancel_right₀ _ (mul_ne_zero had hbd)

/-- `rsub` is subtraction. -/
theorem rsub_eq (a b : Rat) : rsub a b = a - b := by
  have had : ((a.den : Rat)) ≠ 0 := by exact_mod_cast a.den_nz
  have hbd : ((b.den : Rat)) ≠ 0 := by exact_mod_cast b.den_nz
  unfold rsub
  rw [Rat.divInt_eq_div]
  push_cast
  rw [num_eq_mul_den a, num_eq_mul_den b]
  rw [show a * (a.den : Rat) * (b.den : Rat) - b * (b.den : Rat) * (a.den : Rat)
      = (a - b) * ((a.den : Rat) * (b.den : Rat)) from by ring]
  exact mul_div_cancel_right₀ _ (mul_ne_zero had hbd)

/-- Folding `radd` from an accumulator sums the list. -/
theorem rsum_eq_aux (l : List Rat) : ∀ a : Rat, l.foldl radd a = a + l.sum := by
  induction l with
  | nil => intro a; simp
  | cons c t ih =>
    intro a
    simp only [List.foldl_cons, List.sum_cons, ih, radd_eq]
    ring

/-- `rsum` is the list sum. -/
theorem rsum_eq (l : List Rat) : rsum l = l.sum := by
  unfold rsum
  rw [rsum_eq_aux]
  simp

theorem startsWithL_of_append (s e : List Char) :
    ∀ l, startsWithL (s ++ e) l = true → startsWithL s l = true := by
  induction s with
  | nil => intro l _; rfl
  | cons a s ih =>
    intro l
    cases l with
    | nil => intro h; exact absurd h (by simp [startsWithL])
    | cons b t =>
      intro h
      simp only [List.cons_append, startsWithL, Bool.and_eq_true] at h ⊢
      exact ⟨h.1, ih t h.2⟩

theorem hasSubL_of_append (sub e : List Char) :
    ∀ l, hasSubL (sub ++ e) l = true → hasSubL sub l = true := by
  intro l
  induction l with
  | nil =>
    intro h
    cases sub with
    | nil => rfl
    | cons a s => exact absurd h (by simp [hasSubL])
  | cons c rest ih =>
    intro h
    simp only [hasSubL, Bool.or_eq_true] at h ⊢
    cases h with
    | inl h => exact Or.inl (startsWithL_of_append _ _ _ h)
    | inr h => exact Or.inr (ih h)

theorem pyIn_passed_imp (t : String) : pyIn "passed" t = true → pyIn "pass" t = true := by
  intro h
  unfold pyIn at h ⊢
  have he : "passed".data = "pass".data ++ ['e', 'd'] := by rfl
  rw [he] at h
  exact hasSubL_of_append _ _ _ h

theorem pyIn_failed_imp (t : String) : pyIn "failed" t = true → pyIn "fail" t = true := by
  intro h
  unfold pyIn at h ⊢
  have he : "failed".data = "fail".data ++ ['e', 'd'] := by rfl
  rw [he] at h
  exact hasSubL_of_append _ _ _ h

theorem stepScenario_results (i : Nat) (s : Scenario) (o : ScenOutcome) (st : RunState) :
    (stepScenario i s o st).results = st.results ++ [resultOf o] := by
  cases o with
  | commError m => rfl
  | answered resp v =>
    simp only [stepScenario, resultOf]
    split_ifs <;> rfl

theorem runLoopAux_results (xs : List (Scenario × ScenOutcome)) :
    ∀ (i : Nat) (st : RunState),
      (runLoopAux i xs st).results = st.results ++ xs.map (fun p => resultOf p.2) := by
  induction xs with
  | nil => intro i st; simp [runLoopAux]
  | cons hd tl ih =>
    intro i st
    simp only [runLoopAux, List.map_cons]
    rw [ih, stepScenario_results]
    simp

theorem runLoop_results (xs : List (Scenario × ScenOutcome)) :
    (runLoop xs).results = xs.map (fun p => resultOf p.2) := by
  unfold runLoop
  rw [runLoopAux_results]
  rfl

theorem takeSample_spec : sampleSpec takeSample := by
  intro l k hk
  constructor
  · simpa [takeSample] using hk
  · exact (List.take_sublist k l).subperm

/-- C3: for every (scenario, response) pair, if the judge-model call itself
raises, `evaluate` returns — rather than raises — a verdict with
`passed=false`, `score=0.5`, reason "Evaluation error: " followed by the
exception message truncated (to 100 characters), and
`detected_failures=["evaluation_error"]`. -/
theorem prism_c3_judge_call_error (pm : String → String) (m : String) :
    evaluate pm (.callError m) =
      { passed := false, score := 1/2,
        reason := "Evaluation error: " ++ pyTake 100 m,
        detected_failures := ["evaluation_error"] } := by
  unfold evaluate
  rw [rdiv_eq]

/-- C5: the judge's parser strips fenced-code-block markers before JSON
decoding: on the fenced judge text of the specification, `evaluate` returns
a verdict with `passed=true` and `score=0.9` (whatever the pydantic-error
oracle). -/
theorem prism_c5_fence_stripping (pm : String → String) :
    (evaluate pm (.completion c5input)).passed = true ∧
    (evaluate pm (.completion c5input)).score = 9/10 := by
  have h : evaluate pm (.completion c5input) =
      { passed := true, score := rdiv 9 10, reason := "ok", detected_failures := [] } := rfl
  rw [h]
  exact ⟨rfl, rdiv_eq 9 10⟩

/-- C8 counterexample: a judge completion that parses as JSON with
`score=1.5` passes pydantic validation unchanged — the verdict built from
successfully parsed judge JSON is NOT range-checked, so its score lies
outside [0.0, 1.0], refuting the claim as stated (the `EvalScore` field is
documented as "Score from 0.0 to 1.0" but carries no validator). -/
theorem prism_c8_score_not_range_checked :
    evaluate pm0 (.completion c8input) =
      { passed := true, score := 3/2, reason := "ok", detected_failures := [] } ∧
    ¬ (evaluate pm0 (.completion c8input)).score ≤ 1 := by
  have h : evaluate pm0 (.completion c8input) =
      { passed := true, score := rdiv 3 2, reason := "ok", detected_failures := [] } := rfl
  constructor
  · rw [h, rdiv_eq]
  · rw [h]
    show ¬ rdiv 3 2 ≤ 1
    rw [rdiv_eq]
    norm_num

/-- C4: for every judge output whose fence-stripped text is not decodable as
JSON, `evaluate` returns the keyword-heuristic verdict tagged
`json_parse_error`: `passed=true, score=0.7` when the lowercased text
contains "pass", otherwise `passed=false, score=0.3` when it contains
"fail", otherwise `passed=false, score=0.5`; the reason is the text
truncated to 200 characters. -/
theorem prism_c4_heuristic_fallback (pm : String → String) (raw : String)
    (h : jsonParse (stripFences raw) = none) :
    evaluate pm (.completion raw) =
      (if pyIn "pass" (pyLower (stripFences raw)) then
        { passed := true, score := 7/10,
          reason := if pyLen (stripFences raw) > 200 then pyTake 200 (stripFences raw)
            else stripFences raw,
          detected_failures := ["json_parse_error"] }
      else if pyIn "fail" (pyLower (stripFences raw)) then
        { passed := false, score := 3/10,
          reason := if pyLen (stripFences raw) > 200 then pyTake 200 (stripFences raw)
            else stripFences raw,
          detected_failures := ["json_parse_error"] }
      else
        { passed := false, score := 1/2,
          reason := if pyLen (stripFences raw) > 200 then pyTake 200 (stripFences raw)
            else stripFences raw,
          detected_failures := ["json_parse_error"] }) := by
  have he : evaluate pm (.completion raw) = heuristicVerdict (stripFences raw) := by
    simp only [evaluate]
    rw [h]
  rw [he]
  unfold heuristicVerdict
  cases hp : pyIn "pass" (pyLower (stripFences raw)) with
  | true => simp [hp, rdiv_eq]
  | false =>
    have hp2 : pyIn "passed" (pyLower (stripFences raw)) = false := by
      cases hq : pyIn "passed" (pyLower (stripFences raw))
      · rfl
      · exact absurd (pyIn_passed_imp _ hq) (by simp [hp])
    cases hf : pyIn "fail" (pyLower (stripFences raw)) with
    | true => simp [hp, hp2, hf, rdiv_eq]
    | false =>
      have hf2 : pyIn "failed" (pyLower (stripFences raw)) = false := by
        cases hq : pyIn "failed" (pyLower (stripFences raw))
        · rfl
        · exact absurd (pyIn_failed_imp _ hq) (by simp [hf])
      simp [hp, hp2, hf, hf2, rdiv_eq]

/-- C4 witness: on raw text with no JSON containing the substring "failed"
(and not containing "pass"), the fallback yields the 0.3 failing verdict. -/
theorem prism_c4_heuristic_fallback_witness :
    evaluate pm0 (.completion c4winput) =
      { passed := false, score := 3/10, reason := c4winput,
        detected_failures := ["json_parse_error"] } := by
  have h := prism_c4_heuristic_fallback pm0 c4winput (by rfl)
  rw [h]
  rw [show pyIn "pass" (pyLower (stripFences c4winput)) = false from by decide,
    show pyIn "fail" (pyLower (stripFences c4winput)) = true from by decide,
    show stripFences c4winput = c4winput from by decide]
  simp only [Bool.false_eq_true, if_false, if_true]
  rw [if_neg (by decide : ¬ pyLen c4winput > 200)]

/-- C1 (code evidence): on the specification's end-to-end run — 3 scenarios
(2 Level 1, 1 Level 2), agent communication error on the Level-1 scenario 2,
judge passes scenarios 1 and 3 — the code produces `total_scenarios=3`,
`passed_scenarios=2`, `failed_scenarios=1` and `level2_srs=100.0` as
claimed, but `level1_dar=0.0`, not the claimed `50.0`: the level failure
counters are incremented only in the success branch of the loop
(`src/src/agent.py` lines 193-199), so a communication-error failure never
reaches its level's counter. -/
theorem prism_c1_comm_error_run_metrics :
    (runReport xsC1).total_scenarios = 3 ∧
    (runReport xsC1).passed_scenarios = 2 ∧
    (runReport xsC1).failed_scenarios = 1 ∧
    (runLoop xsC1).level1_failures = 0 ∧
    (runReport xsC1).level1_dar = 0 ∧
    (runReport xsC1).level1_dar ≠ 50 ∧
    (runReport xsC1).level2_srs = 100 := by
  decide

/-- C2: for every scenario whose agent call raises, the loop appends the
synthesized verdict `passed=false, score=0.0,
reason="Agent communication error: <message>",
detected_failures=["communication_error"]` at that scenario's position, and
still processes every scenario of the run (one verdict per scenario — the
run does not abort). -/
theorem prism_c2_comm_error_verdict (xs : List (Scenario × ScenOutcome)) (i : Nat)
    (s : Scenario) (m : String)
    (h : xs[i]? = some (s, ScenOutcome.commError m)) :
    (runLoop xs).results.length = xs.length ∧
    (runLoop xs).results[i]? =
      some { passed := false, score := 0,
             reason := "Agent communication error: " ++ m,
             detected_failures := ["communication_error"] } := by
  have hr := runLoop_results xs
  constructor
  · rw [hr, List.length_map]
  · rw [hr, List.getElem?_map, h]
    show some (resultOf (.commError m)) = _
    unfold resultOf
    rw [natR_eq]
    norm_num

/-- C2 witness: the first scenario of a concrete run hits a communication
error; its verdict is the synthesized one and both scenarios are judged. -/
theorem prism_c2_comm_error_verdict_witness :
    (runLoop xsC2).results.length = xsC2.length ∧
    (runLoop xsC2).results[0]? =
      some { passed := false, score := 0,
             reason := "Agent communication error: " ++ "timeout",
             detected_failures := ["communication_error"] } :=
  prism_c2_comm_error_verdict xsC2 0 sL1a "timeout" rfl

/-- C6 counterexample: a request whose `num_scenarios` is 0 — present and
`int()`-coercible but not a positive integer — is NOT rejected:
`Agent.validate_request` only checks `int()`-coercibility
(`src/src/agent.py` lines 110-113), and the run proceeds to completion. -/
theorem prism_c6_nonpositive_accepted :
    validate_request reqC6 = (true, "ok") ∧
    (runRequest reqC6 [] takeSample outs0).isRejected = false := by
  decide

/-- C6 as amended: for every request whose participants lack the role
`evaluee`, or whose config lacks the key `num_scenarios`, or whose
`num_scenarios` value is not coercible to an integer, the run is rejected
with the corresponding descriptive message — uniformly in the scenario
pool, the sampling oracle and the outcome oracle, i.e. before any scenario
is loaded or any agent call is made. -/
theorem prism_c6_validation_rejects (r : EvalRequest) (pool : List Scenario)
    (sample : List Scenario → Nat → List Scenario) (outs : Nat → ScenOutcome) :
    (r.participants.any (fun p => p.1 == "evaluee") = false →
      runRequest r pool sample outs = .rejected "Missing roles: \x7b\x27evaluee\x27\x7d") ∧
    (r.participants.any (fun p => p.1 == "evaluee") = true →
      r.config.any (fun p => p.1 == "num_scenarios") = false →
      runRequest r pool sample outs =
        .rejected "Missing config keys: \x7b\x27num_scenarios\x27\x7d") ∧
    (r.participants.any (fun p => p.1 == "evaluee") = true →
      ∀ v, lastLookup r.config "num_scenarios" = some v →
        pyIntCoerce v = none →
        runRequest r pool sample outs = .rejected "num_scenarios must be an integer") := by
  refine ⟨?_, ?_, ?_⟩
  · intro h1
    unfold runRequest validate_request
    rw [h1]
    rfl
  · intro h1 h2
    unfold runRequest validate_request
    rw [h1, h2]
    rfl
  · intro h1 v hv hc
    cases hany : r.config.any (fun p => p.1 == "num_scenarios") with
    | false =>
      exfalso
      have hfilter : r.config.filter (fun p => p.1 == "num_scenarios") = [] := by
        rw [List.filter_eq_nil_iff]
        intro p hp
        have := List.any_eq_false.mp hany
        simpa using this p hp
      simp [lastLookup, hfilter] at hv
    | true =>
      simp [runRequest, validate_request, h1, hany, hv, hc]

/-- C6 witness (amended): a request with `num_scenarios` present but
non-numeric is rejected with the integer message, independently of the
pool and oracles. -/
theorem prism_c6_validation_rejects_witness :
    runRequest reqC6bad poolC7 takeSample outs0 =
      .rejected "num_scenarios must be an integer" :=
  (prism_c6_validation_rejects reqC6bad poolC7 takeSample outs0).2.2 rfl
    (ConfigVal.vstr "five") rfl rfl

/-- C7: for every config whose `num_scenarios` coerces to a positive `num`,
and every sampling oracle satisfying the `random.sample` contract (exactly
`k` elements, drawn without replacement — uniformity is the external random
source's property), `load_scenarios` succeeds; it returns exactly `num`
scenarios drawn from the filtered pool when the pool is larger than `num`,
and otherwise the entire filtered pool unchanged — no error, no padding. -/
theorem prism_c7_load_scenarios (config : List (String × ConfigVal)) (pool : List Scenario)
    (sample : List Scenario → Nat → List Scenario) (v : ConfigVal) (num : Int)
    (hs : sampleSpec sample)
    (hv : lastLookup config "num_scenarios" = some v)
    (hc : pyIntCoerce v = some num)
    (hpos : 0 < num) :
    ∃ res, load_scenarios config pool sample = some res ∧
      (((filterPool config pool).length : Int) > num →
        res.length = num.toNat ∧ res.Subperm (filterPool config pool)) ∧
      (¬ ((filterPool config pool).length : Int) > num →
        res = filterPool config pool) := by
  unfold load_scenarios
  rw [hv]
  simp only [Option.getD_some]
  rw [hc]
  dsimp only
  by_cases hgt : ((filterPool config pool).length : Int) > num
  · rw [if_pos hgt, if_neg (by omega : ¬ num < 0)]
    refine ⟨sample (filterPool config pool) num.toNat, rfl, ?_, ?_⟩
    · intro _
      exact hs (filterPool config pool) num.toNat (by omega)
    · intro hcon
      exact absurd hgt hcon
  · rw [if_neg hgt]
    exact ⟨filterPool config pool, rfl, fun hcon => absurd hcon hgt, fun _ => rfl⟩

/-- C7 witness: requesting 2 of a 3-scenario pool through the take-first
oracle returns exactly 2 scenarios from the filtered pool. -/
theorem prism_c7_load_scenarios_witness :
    ∃ res, load_scenarios cfgC7 poolC7 takeSample = some res ∧
      res.length = 2 ∧ res.Subperm (filterPool cfgC7 poolC7) := by
  obtain ⟨res, h1, h2, h3⟩ := prism_c7_load_scenarios cfgC7 poolC7 takeSample (.vint 2) 2
    takeSample_spec rfl rfl (by norm_num)
  have hgt : ((filterPool cfgC7 poolC7).length : Int) > 2 := by decide
  exact ⟨res, h1, (h2 hgt).1, (h2 hgt).2⟩

/-- C9: in the final report, `level1_dar` equals
(level-1 failures / level-1 total) × 100 (rounded to 2 decimals, as all
report rates are) and is 0 when the level-1 total is 0; likewise
`level2_srs` and `level3_icrr` are their pass-rates and 0 when their level
has zero scenarios; `overall_score` equals 100 × passed / total rounded to
2 decimals (2 passed of 3 gives 66.67) and is 0 when the total is 0 — no
division by zero occurs. -/
theorem prism_c9_report_rates (xs : List (Scenario × ScenOutcome)) :
    (countLevelTag "Level 1" (xs.map (fun p => p.1)) = 0 → (runReport xs).level1_dar = 0) ∧
    (0 < countLevelTag "Level 1" (xs.map (fun p => p.1)) →
      (runReport xs).level1_dar =
        round2 (((runLoop xs).level1_failures : Rat) /
          (countLevelTag "Level 1" (xs.map (fun p => p.1)) : Rat) * 100)) ∧
    (countLevelTag "Level 2" (xs.map (fun p => p.1)) = 0 → (runReport xs).level2_srs = 0) ∧
    (0 < countLevelTag "Level 2" (xs.map (fun p => p.1)) →
      (runReport xs).level2_srs =
        round2 (((countLevelTag "Level 2" (xs.map (fun p => p.1)) : Rat) -
            ((runLoop xs).level2_failures : Rat)) /
          (countLevelTag "Level 2" (xs.map (fun p => p.1)) : Rat) * 100)) ∧
    (countLevelTag "Level 3" (xs.map (fun p => p.1)) = 0 → (runReport xs).level3_icrr = 0) ∧
    (0 < countLevelTag "Level 3" (xs.map (fun p => p.1)) →
      (runReport xs).level3_icrr =
        round2 (((countLevelTag "Level 3" (xs.map (fun p => p.1)) : Rat) -
            ((runLoop xs).level3_failures : Rat)) /
          (countLevelTag "Level 3" (xs.map (fun p => p.1)) : Rat) * 100)) ∧
    ((runReport xs).total_scenarios = xs.length) ∧
    (xs = [] → (runReport xs).overall_score = 0) ∧
    (xs ≠ [] →
      (runReport xs).overall_score =
        round2 (((runReport xs).passed_scenarios : Rat) / (xs.length : Rat) * 100)) ∧
    (runReport xsC9).overall_score = 6667/100 := by
  have hlen : (runLoop xs).results.length = xs.length := by
    rw [runLoop_results, List.length_map]
  have hz : ∀ f : Nat, round2 (levelRate f 0) = 0 := by
    intro f
    have h : levelRate f 0 = natR 0 := by simp [levelRate]
    rw [h]
    decide
  have hnz : ∀ f t : Nat, 0 < t →
      round2 (levelRate f t) = round2 ((f : Rat) / (t : Rat) * 100) := by
    intro f t ht
    unfold levelRate
    rw [if_pos ht, rmul_eq, rdiv_eq, natR_eq, natR_eq, natR_eq]
    norm_cast
  have hpz : ∀ f : Nat, round2 (levelPassRate f 0) = 0 := by
    intro f
    have h : levelPassRate f 0 = natR 0 := by simp [levelPassRate]
    rw [h]
    decide
  have hpnz : ∀ f t : Nat, 0 < t →
      round2 (levelPassRate f t) = round2 (((t : Rat) - (f : Rat)) / (t : Rat) * 100) := by
    intro f t ht
    unfold levelPassRate
    rw [if_pos ht, rmul_eq, rdiv_eq, rsub_eq, natR_eq, natR_eq, natR_eq]
    norm_cast
  have hoz : ∀ p : Nat, round2 (overallRate p 0) = 0 := by
    intro p
    have h : overallRate p 0 = natR 0 := by simp [overallRate]
    rw [h]
    decide
  have honz : ∀ p t : Nat, 0 < t →
      round2 (overallRate p t) = round2 ((p : Rat) / (t : Rat) * 100) := by
    intro p t ht
    unfold overallRate
    rw [if_pos ht, rmul_eq, rdiv_eq, natR_eq, natR_eq, natR_eq]
    norm_cast
  refine ⟨?_, ?_, ?_, ?_, ?_, ?_, ?_, ?_, ?_, ?_⟩
  · intro h
    show round2 (levelRate (runLoop xs).level1_failures
      (countLevelTag "Level 1" (xs.map (fun p => p.1)))) = 0
    rw [h]
    exact hz _
  · intro h
    show round2 (levelRate (runLoop xs).level1_failures
      (countLevelTag "Level 1" (xs.map (fun p => p.1)))) = _
    exact hnz _ _ h
  · intro h
    show round2 (levelPassRate (runLoop xs).level2_failures
      (countLevelTag "Level 2" (xs.map (fun p => p.1)))) = 0
    rw [h]
    exact hpz _
  · intro h
    show round2 (levelPassRate (runLoop xs).level2_failures
      (countLevelTag "Level 2" (xs.map (fun p => p.1)))) = _
    exact hpnz _ _ h
  · intro h
    show round2 (levelPassRate (runLoop xs).level3_failures
      (countLevelTag "Level 3" (xs.map (fun p => p.1)))) = 0
    rw [h]
    exact hpz _
  · intro h
    show round2 (levelPassRate (runLoop xs).level3_failures
      (countLevelTag "Level 3" (xs.map (fun p => p.1)))) = _
    exact hpnz _ _ h
  · exact hlen
  · intro h
    show round2 (overallRate ((runLoop xs).results.countP (fun r => r.passed))
      (runLoop xs).results.length) = 0
    rw [hlen, h]
    exact hoz _
  · intro h
    show round2 (overallRate ((runLoop xs).results.countP (fun r => r.passed))
      (runLoop xs).results.length) = _
    rw [hlen]
    exact honz _ _ (List.length_pos.mpr h)
  · rw [show (6667 : Rat)/100 = rdiv 6667 100 from (rdiv_eq 6667 100).symm]
    decide

/-- C9 witness: on the concrete 3-scenario run with no Level 3 scenarios,
the Level-3 rate is 0 (its bucket is empty, no division by zero) and the
overall score of 2 passed of 3 is 66.67. -/
theorem prism_c9_report_rates_witness :
    (runReport xsC9).level3_icrr = 0 ∧ (runReport xsC9).overall_score = 6667/100 := by
  have h := prism_c9_report_rates xsC9
  exact ⟨h.2.2.2.2.1 (by decide), h.2.2.2.2.2.2.2.2.2⟩

/-- Explicit form of a level's breakdown entry in terms of ordinary
rational operations. -/
theorem mkLevelStats_eq (scores : List Rat) :
    mkLevelStats scores =
      { avg_score := round2 (scores.sum / (scores.length : Rat) * 100),
        count := scores.length,
        passed := scores.countP (fun s => decide ((3 : Rat)/5 ≤ s)),
        failed := scores.length - scores.countP (fun s => decide ((3 : Rat)/5 ≤ s)) } := by
  have hfun : (fun s => decide (rdiv 3 5 ≤ s)) = (fun s : Rat => decide ((3 : Rat)/5 ≤ s)) := by
    funext s
    rw [rdiv_eq]
  unfold mkLevelStats
  rw [hfun]
  dsimp only
  rw [rmul_eq, rdiv_eq, rsum_eq, natR_eq, natR_eq]
  norm_cast

/-- Looking up "Level 1" in the level breakdown when its bucket is
non-empty. -/
theorem lastLookup_levelBreakdown_l1 (l1 l2 l3 : List Rat) (h : l1 ≠ []) :
    lastLookup (levelBreakdown l1 l2 l3) "Level 1" = some (mkLevelStats l1) := by
  have h1 : l1.isEmpty = false := by
    cases l1 with
    | nil => exact absurd rfl h
    | cons a t => rfl
  by_cases h2 : l2.isEmpty <;> by_cases h3 : l3.isEmpty <;>
    simp [levelBreakdown, lastLookup, h1, h2, h3]

/-- Looking up "Level 2" in the level breakdown when its bucket is
non-empty. -/
theorem lastLookup_levelBreakdown_l2 (l1 l2 l3 : List Rat) (h : l2 ≠ []) :
    lastLookup (levelBreakdown l1 l2 l3) "Level 2" = some (mkLevelStats l2) := by
  have h2 : l2.isEmpty = false := by
    cases l2 with
    | nil => exact absurd rfl h
    | cons a t => rfl
  by_cases h1 : l1.isEmpty <;> by_cases h3 : l3.isEmpty <;>
    simp [levelBreakdown, lastLookup, h1, h2, h3]

/-- Looking up "Level 3" in the level breakdown when its bucket is
non-empty. -/
theorem lastLookup_levelBreakdown_l3 (l1 l2 l3 : List Rat) (h : l3 ≠ []) :
    lastLookup (levelBreakdown l1 l2 l3) "Level 3" = some (mkLevelStats l3) := by
  have h3 : l3.isEmpty = false := by
    cases l3 with
    | nil => exact absurd rfl h
    | cons a t => rfl
  by_cases h1 : l1.isEmpty <;> by_cases h2 : l2.isEmpty <;>
    simp [levelBreakdown, lastLookup, h1, h2, h3]

/-- C10: for every level bucket with at least one recorded score, the
report's `level_breakdown` entry is {avg_score = mean score × 100 rounded
to 2 decimals, count, passed = number of raw scores ≥ 0.6,
failed = count − passed} — the pass/fail split is recomputed from the raw
scores at the 0.6 threshold; concretely, a run whose only verdict has
`passed=true` at score 0.55 counts as an overall pass yet as `failed` in
the breakdown, showing independence from the verdict's own flag. -/
theorem prism_c10_level_breakdown (xs : List (Scenario × ScenOutcome)) :
    ((runLoop xs).level1_scores ≠ [] →
      lastLookup (runReport xs).level_breakdown "Level 1" =
        some { avg_score := round2 ((runLoop xs).level1_scores.sum /
                 ((runLoop xs).level1_scores.length : Rat) * 100),
               count := (runLoop xs).level1_scores.length,
               passed := (runLoop xs).level1_scores.countP (fun s => decide ((3 : Rat)/5 ≤ s)),
               failed := (runLoop xs).level1_scores.length -
                 (runLoop xs).level1_scores.countP (fun s => decide ((3 : Rat)/5 ≤ s)) }) ∧
    ((runLoop xs).level2_scores ≠ [] →
      lastLookup (runReport xs).level_breakdown "Level 2" =
        some { avg_score := round2 ((runLoop xs).level2_scores.sum /
                 ((runLoop xs).level2_scores.length : Rat) * 100),
               count := (runLoop xs).level2_scores.length,
               passed := (runLoop xs).level2_scores.countP (fun s => decide ((3 : Rat)/5 ≤ s)),
               failed := (runLoop xs).level2_scores.length -
                 (runLoop xs).level2_scores.countP (fun s => decide ((3 : Rat)/5 ≤ s)) }) ∧
    ((runLoop xs).level3_scores ≠ [] →
      lastLookup (runReport xs).level_breakdown "Level 3" =
        some { avg_score := round2 ((runLoop xs).level3_scores.sum /
                 ((runLoop xs).level3_scores.length : Rat) * 100),
               count := (runLoop xs).level3_scores.length,
               passed := (runLoop xs).level3_scores.countP (fun s => decide ((3 : Rat)/5 ≤ s)),
               failed := (runLoop xs).level3_scores.length -
                 (runLoop xs).level3_scores.countP (fun s => decide ((3 : Rat)/5 ≤ s)) }) ∧
    (runReport xsC10).passed_scenarios = 1 ∧
    lastLookup (runReport xsC10).level_breakdown "Level 1" =
      some { avg_score := 55, count := 1, passed := 0, failed := 1 } := by
  refine ⟨?_, ?_, ?_, ?_, ?_⟩
  · intro h
    show lastLookup (levelBreakdown (runLoop xs).level1_scores (runLoop xs).level2_scores
      (runLoop xs).level3_scores) "Level 1" = _
    rw [lastLookup_levelBreakdown_l1 _ _ _ h, mkLevelStats_eq]
  · intro h
    show lastLookup (levelBreakdown (runLoop xs).level1_scores (runLoop xs).level2_scores
      (runLoop xs).level3_scores) "Level 2" = _
    rw [lastLookup_levelBreakdown_l2 _ _ _ h, mkLevelStats_eq]
  · intro h
    show lastLookup (levelBreakdown (runLoop xs).level1_scores (runLoop xs).level2_scores
      (runLoop xs).level3_scores) "Level 3" = _
    rw [lastLookup_levelBreakdown_l3 _ _ _ h, mkLevelStats_eq]
  · decide
  · decide

/-- C10 witness: the single-scenario run instantiates the Level-1 part of
the breakdown property (its score bucket is non-empty). -/
theorem prism_c10_level_breakdown_witness :
    lastLookup (runReport xsC10).level_breakdown "Level 1" =
      some { avg_score := round2 ((runLoop xsC10).level1_scores.sum /
               ((runLoop xsC10).level1_scores.length : Rat) * 100),
             count := (runLoop xsC10).level1_scores.length,
             passed := (runLoop xsC10).level1_scores.countP (fun s => decide ((3 : Rat)/5 ≤ s)),
             failed := (runLoop xsC10).level1_scores.length -
               (runLoop xsC10).level1_scores.countP (fun s => decide ((3 : Rat)/5 ≤ s)) } :=
  (prism_c10_level_breakdown xsC10).1 (by decide)

/-- C8 as amended: a verdict produced via the keyword-heuristic fallback
(the non-fallback path other than parsed JSON) has a score in [0.0, 1.0];
a verdict built from successfully parsed judge-model JSON carries the
parsed score through unchanged — no range validation is applied, so that
score need not lie in [0.0, 1.0]. -/
theorem prism_c8_amended (pm : String → String) (raw : String) :
    (jsonParse (stripFences raw) = none →
      0 ≤ (evaluate pm (.completion raw)).score ∧
        (evaluate pm (.completion raw)).score ≤ 1) ∧
    (∀ v s, jsonParse (stripFences raw) = some v → toEvalScore v = some s →
      evaluate pm (.completion raw) = s) := by
  have hsc : ∀ t, (heuristicVerdict t).score = rdiv 7 10 ∨
      (heuristicVerdict t).score = rdiv 3 10 ∨ (heuristicVerdict t).score = rdiv 1 2 := by
    intro t
    unfold heuristicVerdict
    dsimp only
    split_ifs <;> simp
  constructor
  · intro h
    have he : evaluate pm (.completion raw) = heuristicVerdict (stripFences raw) := by
      simp only [evaluate]
      rw [h]
    rw [he]
    rcases hsc (stripFences raw) with hs | hs | hs <;>
      · rw [hs, rdiv_eq]
        norm_num
  · intro v s hv hs
    simp only [evaluate]
    rw [hv]
    dsimp only
    rw [hs]

/-- C8 amended witness: the out-of-range judge JSON is passed through: the
parsed verdict is returned exactly, score 3/2 included. -/
theorem prism_c8_amended_witness :
    evaluate pm0 (.completion c8input) =
      { passed := true, score := Rat.divInt 3 2, reason := "ok", detected_failures := [] } :=
  (prism_c8_amended pm0 c8input).2
    (JVal.jobj [("passed", JVal.jbool true), ("score", JVal.jnum (Rat.divInt 3 2)),
      ("reason", JVal.jstr "ok"), ("detected_failures", JVal.jarr [])])
    { passed := true, score := Rat.divInt 3 2, reason := "ok", detected_failures := [] }
    rfl rfl
